import Mathlib

/-!
Shallow embedding of the protocol core of the sandbox SDK client
(`src/sandboxSdk.ts`): the RateLimiter, the MetricsCollector, the
unary job correlator (`sendJob`), the streaming job correlator
(`sendStreamingJob` / `parseOutput`), the raw terminal streaming path
(`runTerminal`) and the listener registry
(`trackListener` / `removeListener`).

JavaScript values of type `string | undefined` are embedded as
`Option String`, numbers used as timestamps/durations as `Int`
(durations fed to the metrics ring as `ℚ` so the arithmetic mean is
exact), and in-place mutation as explicit state passing.  A settled
JS promise ignores further `resolve`/`reject` calls; `settle` below
encodes exactly that platform semantics.
-/

namespace SandboxSdk

/-! ## RateLimiter (`src/sandboxSdk.ts` lines 279-323) -/

/-- State of `class RateLimiter`: the sliding window of request
timestamps, the concurrent-job counter and the configured ceiling. -/
structure RateLimiter where
  requestTimestamps : List Int
  concurrentJobs : Int
  maxRequestsPerMinute : Nat
deriving Repr, DecidableEq

/-- `new RateLimiter(max)`: empty window, zero concurrent jobs. -/
def RateLimiter.new (max : Nat) : RateLimiter :=
  ⟨[], 0, max⟩

/-- The SDK constructs its limiter as `new RateLimiter(60)`
(line 361); the constructor default is also 60 (line 283). -/
def sdkRateLimiter : RateLimiter :=
  RateLimiter.new 60

/-- `canMakeRequest()` (lines 285-299): prune timestamps not strictly
newer than `now - 60000`, then admit iff the remaining count is below
the ceiling.  Returns the admission verdict together with the mutated
limiter (the pruning is an in-place assignment in the source). -/
def RateLimiter.canMakeRequest (r : RateLimiter) (now : Int) :
    Bool × RateLimiter :=
  let oneMinuteAgo := now - 60000
  let pruned := r.requestTimestamps.filter (fun ts => oneMinuteAgo < ts)
  let r2 := { r with requestTimestamps := pruned }
  if pruned.length ≥ r.maxRequestsPerMinute then (false, r2)
  else (true, r2)

/-- `recordRequest()` (lines 301-303): append the current timestamp. -/
def RateLimiter.recordReq (r : RateLimiter) (now : Int) : RateLimiter :=
  { r with requestTimestamps := r.requestTimestamps ++ [now] }

/-- `getRetryAfter()` (lines 305-310): zero on an empty window,
otherwise `60000 - (now - oldest)` clamped at zero, where `oldest` is
`requestTimestamps[0]`. -/
def RateLimiter.getRetryAfter (r : RateLimiter) (now : Int) : Int :=
  match r.requestTimestamps with
  | [] => 0
  | oldest :: _ => max (60000 - (now - oldest)) 0

/-- `incrementConcurrentJobs()` (lines 312-314): `return ++this.concurrentJobs`. -/
def RateLimiter.incrementConcurrentJobs (r : RateLimiter) :
    Int × RateLimiter :=
  let n := r.concurrentJobs + 1
  (n, { r with concurrentJobs := n })

/-- `decrementConcurrentJobs()` (lines 316-318):
`return Math.max(--this.concurrentJobs, 0)` — the stored field receives
the un-floored decrement; only the returned value is clamped. -/
def RateLimiter.decrementConcurrentJobs (r : RateLimiter) :
    Int × RateLimiter :=
  let n := r.concurrentJobs - 1
  (max n 0, { r with concurrentJobs := n })

/-- `getConcurrentJobs()` (lines 320-322): the raw stored counter. -/
def RateLimiter.getConcurrentJobs (r : RateLimiter) : Int :=
  r.concurrentJobs

/-! ## MetricsCollector (`src/sandboxSdk.ts` lines 208-275) -/

/-- The `MetricsData` record (lines 208-216), without the wall-clock
`lastUpdated` stamp (re-stamped on every read, carries no state). -/
structure MetricsData where
  totalRequests : Nat
  successfulRequests : Nat
  failedRequests : Nat
  averageResponseTime : ℚ
  totalExecutionTime : ℚ
  activeSandboxes : Nat
deriving Repr, DecidableEq

/-- State of `class MetricsCollector`: the counters plus the
response-time ring (a plain array in the source, capped at 1000). -/
structure MetricsCollector where
  metrics : MetricsData
  responseTimes : List ℚ
deriving Repr, DecidableEq

def MetricsCollector.new : MetricsCollector :=
  ⟨⟨0, 0, 0, 0, 0, 0⟩, []⟩

/-- `updateAverageResponseTime()` (lines 245-249): no-op on an empty
ring, otherwise set the average to sum / length. -/
def MetricsCollector.updateAverageResponseTime (c : MetricsCollector) :
    MetricsCollector :=
  if c.responseTimes.length = 0 then c
  else
    { c with metrics :=
        { c.metrics with averageResponseTime :=
            c.responseTimes.sum / (c.responseTimes.length : ℚ) } }

/-- `recordRequest(success, responseTime)` (lines 231-243): bump the
total and exactly one of success/fail, push the sample, `shift()` the
oldest sample out when the ring exceeds 1000 entries, recompute the
average. -/
def MetricsCollector.recordRequest (c : MetricsCollector)
    (success : Bool) (responseTime : ℚ) : MetricsCollector :=
  let m := c.metrics
  let m := { m with totalRequests := m.totalRequests + 1 }
  let m :=
    if success then
      { m with successfulRequests := m.successfulRequests + 1 }
    else
      { m with failedRequests := m.failedRequests + 1 }
  let rts := c.responseTimes ++ [responseTime]
  let rts := if rts.length > 1000 then rts.tail else rts
  MetricsCollector.updateAverageResponseTime ⟨m, rts⟩

/-- Feeding a whole list of samples through `recordRequest`, all
marked successful (the success flag does not touch the ring). -/
def MetricsCollector.feed (c : MetricsCollector) (l : List ℚ) :
    MetricsCollector :=
  l.foldl (fun c d => c.recordRequest true d) c

/-! ## Streamed messages and the `Execution` accumulator
(`src/sandboxSdk.ts` lines 40-108, 961-1015) -/

/-- A decoded streamed line: a JSON object with a string `type`
discriminant and the optional per-type payload fields read by
`parseOutput`.  Absent JSON fields are `none`. -/
structure Msg where
  type : String
  text : Option String
  name : Option String
  value : Option String
  traceback : Option String
  execution_count : Option Int
  is_main_result : Option Bool
deriving Repr, DecidableEq

/-- `class ExecutionError` (lines 40-49): the name/value/traceback
triple taken verbatim from the `error` message's fields. -/
structure ExecutionError where
  name : Option String
  value : Option String
  traceback : Option String
deriving Repr, DecidableEq

/-- `new Result(rawData, isMainResult)` (lines 110-167): the typed
format accessors are pure projections of `raw`, so the constructed
object is determined by the raw message and the main-result flag. -/
structure Result where
  raw : Msg
  isMainResult : Bool
deriving Repr, DecidableEq

/-- `Logs` (stdout/stderr line sequences).  The source pushes
`msg.text` unconditionally, and `msg.text` may be absent, hence
`Option String` entries. -/
structure Logs where
  stdout : List (Option String)
  stderr : List (Option String)
deriving Repr, DecidableEq

/-- `class Execution` (lines 79-108): results, logs, optional error,
optional execution counter. -/
structure Execution where
  results : List Result
  logs : Logs
  error : Option ExecutionError
  executionCount : Option Int
deriving Repr, DecidableEq

/-- `new Execution()` with the constructor defaults (lines 85-95). -/
def Execution.new : Execution :=
  ⟨[], ⟨[], []⟩, none, none⟩

/-- Argument of the `onStdout`/`onStderr` callbacks (`parseOutput`
passes `{line, timestamp, error}`). -/
structure OutputMessage where
  line : Option String
  timestamp : Int
  error : Bool
deriving Repr

/-- The per-chunk callbacks of `RunCodeOptions` that `parseOutput`
may invoke.  A callback is a JS function that may throw: it returns
`Except String Unit`, `Except.error e` standing for a thrown/rejected
value `e`. -/
structure RunOpts where
  onResult : Option (Result → Except String Unit)
  onStdout : Option (OutputMessage → Except String Unit)
  onStderr : Option (OutputMessage → Except String Unit)
  onError : Option (ExecutionError → Except String Unit)

/-- Options with no callbacks installed. -/
def RunOpts.none : RunOpts :=
  ⟨Option.none, Option.none, Option.none, Option.none⟩

/-- Run an optional callback on a value: absent callbacks succeed,
present ones may throw. -/
def runCb {α : Type} (cb : Option (α → Except String Unit)) (a : α) :
    Except String Unit :=
  match cb with
  | Option.none => Except.ok Unit.unit
  | Option.some f => f a

/-- `parseOutput(execution, line, opts)` (lines 961-1015) after the
`JSON.parse` step, with `now` the captured `Date.now()`.  The
`switch (msg.type)` is an if-chain on the discriminant; unmatched
types fall through with no effect.  The execution is mutated before
the callback runs, but a thrown callback rejects the enclosing wait
and the mutated execution is discarded, so the embedding returns
`Except.error` in that case. -/
def parseOutput (execution : Execution) (msg : Msg) (now : Int)
    (opts : RunOpts) : Except String Execution :=
  let timestamp := now * 1000
  if msg.type = "result" then
    let result : Result := ⟨msg, msg.is_main_result.getD false⟩
    let execution :=
      { execution with results := execution.results ++ [result] }
    do runCb opts.onResult result; pure execution
  else if msg.type = "stdout" then
    let execution :=
      { execution with logs :=
          { execution.logs with stdout := execution.logs.stdout ++ [msg.text] } }
    do runCb opts.onStdout ⟨msg.text, timestamp, false⟩; pure execution
  else if msg.type = "stderr" then
    let execution :=
      { execution with logs :=
          { execution.logs with stderr := execution.logs.stderr ++ [msg.text] } }
    do runCb opts.onStderr ⟨msg.text, timestamp, true⟩; pure execution
  else if msg.type = "error" then
    let err : ExecutionError := ⟨msg.name, msg.value, msg.traceback⟩
    let execution := { execution with error := Option.some err }
    do runCb opts.onError err; pure execution
  else if msg.type = "execution_count" then
    pure { execution with executionCount := msg.execution_count }
  else
    pure execution

/-! ## Listener registry (`src/sandboxSdk.ts` lines 1017-1029)

`listeners : Map<string, Set<Function>>` flattened into a list of
(event name, listener identity) pairs with set semantics; listener
identities are modelled as `Nat` tokens (each closure is a distinct
function object).  An event key with an empty set is removed by
`removeListener`, which in the flattened view is automatic. -/

/-- The tracked-listener registry, flattened. -/
abbrev Registry : Type := List (String × Nat)

/-- `trackListener(event, listener)`: `Set.add` — no-op when the pair
is already present, else insert. -/
def trackListener (r : Registry) (event : String) (id : Nat) : Registry :=
  if (event, id) ∈ r then r else r ++ [(event, id)]

/-- `removeListener(event, listener)`: `Set.delete` of the pair (plus
deletion of the emptied event key, invisible in the flattened view). -/
def removeListener (r : Registry) (event : String) (id : Nat) : Registry :=
  r.erase (event, id)

/-- Track a batch of listener identities on one event. -/
def trackAll (r : Registry) (event : String) (ids : List Nat) : Registry :=
  ids.foldl (fun r i => trackListener r event i) r

/-- Remove a batch of listener identities from one event. -/
def removeAll (r : Registry) (event : String) (ids : List Nat) : Registry :=
  ids.foldl (fun r i => removeListener r event i) r

/-! ## The unary job correlator `sendJob`
(`src/sandboxSdk.ts` lines 859-899)

One pending `sendJob` call is a state machine driven by two kinds of
events: the armed timer firing, and a `job:result` message delivered
by the socket.  The promise settles at most once (JS promise
semantics, `settle` below); `clearTimeout` disarms the timer. -/

/-- `JobResultResponse`: the unary reply
`{jobId, success, output?, error?}`. -/
structure JobResultResponse where
  jobId : String
  success : Bool
  output : Option String
  error : Option String
deriving Repr, DecidableEq

/-- The three ways a `sendJob` promise can settle: `resolve(output)`,
`reject(new SandboxError(...))` from the reply, or
`reject(new TimeoutError(...))` from the timer. -/
inductive JobOutcome where
  | resolved (output : String)
  | sandboxError (message : String)
  | timedOut
deriving Repr, DecidableEq

/-- State of one pending `sendJob` call: its correlation id, the
instant the armed timer is due, the promise cell, whether the timer
already fired, whether `clearTimeout` ran, whether the listener is in
the tracked registry, and whether it is attached to the socket. -/
structure SendJobState where
  jobId : String
  deadline : Int
  promise : Option JobOutcome
  timerFired : Bool
  handleCleared : Bool
  tracked : Bool
  socketOn : Bool
deriving Repr, DecidableEq

/-- Settle a promise: a no-op when it is already settled. -/
def settleJob (s : SendJobState) (o : JobOutcome) : SendJobState :=
  if s.promise.isSome then s else { s with promise := Option.some o }

/-- State right after `sendJob` registers: timer armed, listener
tracked (line 895) and attached (line 896), promise pending. -/
def sjInit (jobId : String) (deadline : Int) : SendJobState :=
  ⟨jobId, deadline, Option.none, false, false, true, true⟩

/-- Events a pending `sendJob` can observe: its timer firing at
instant `t`, or a result message delivered on the socket. -/
inductive SJEvent where
  | fireTimer (t : Int)
  | deliver (m : JobResultResponse)
deriving Repr, DecidableEq

/-- One step of the `sendJob` machine.

`fireTimer t` (lines 872-875): a one-shot timer fires only if not
already fired, not cancelled, and not before its due instant; the
callback removes the tracked listener and rejects with a timeout —
it does not detach the socket handler and does not null the handle.

`deliver m` (lines 877-893): the socket invokes the listener only
while attached; the listener returns at once on a foreign `jobId`;
on a match it clears the timer, removes the tracked listener,
detaches itself from the socket, then resolves on
`success && output !== undefined` and rejects with a sandbox error
(message `error ?? "Job failed"`) otherwise. -/
def sjStep (s : SendJobState) (e : SJEvent) : SendJobState :=
  match e with
  | SJEvent.fireTimer t =>
    if s.timerFired ∨ s.handleCleared ∨ t < s.deadline then s
    else
      settleJob { s with timerFired := true, tracked := false }
        JobOutcome.timedOut
  | SJEvent.deliver m =>
    if ¬ s.socketOn then s
    else if m.jobId ≠ s.jobId then s
    else
      let s := { s with handleCleared := true, tracked := false,
                        socketOn := false }
      match m.output with
      | Option.some v =>
        if m.success then settleJob s (JobOutcome.resolved v)
        else settleJob s (JobOutcome.sandboxError (m.error.getD "Job failed"))
      | Option.none =>
        settleJob s (JobOutcome.sandboxError (m.error.getD "Job failed"))

/-- Run a pending `sendJob` through a sequence of events. -/
def sjRun (evs : List SJEvent) (s : SendJobState) : SendJobState :=
  evs.foldl sjStep s

/-! ## The streaming job correlator `sendStreamingJob`
(`src/sandboxSdk.ts` lines 901-959)

One pending streaming call, driven by its timer and by `job:output`
chunks `{jobId, line}` (the line already decoded to a `Msg`). -/

/-- The ways a `sendStreamingJob` promise can settle: resolved with
the accumulated execution once an error chunk lands, rejected by the
timer, or rejected with a value thrown while processing a chunk (a
callback throw or a parse failure). -/
inductive StreamOutcome where
  | resolved (e : Execution)
  | timedOut
  | rejected (err : String)
deriving Repr, DecidableEq

/-- A `job:output` event payload with its line decoded. -/
structure OutputChunk where
  jobId : String
  msg : Msg
deriving Repr, DecidableEq

/-- State of one pending `sendStreamingJob` call.  `tracked` is the
`listeners`-map entry added at line 955 — note `cleanup()` (lines
921-927) clears the timer and detaches the socket handler but never
untracks it. -/
structure StreamState where
  jobId : String
  deadline : Int
  execution : Execution
  opts : RunOpts
  promise : Option StreamOutcome
  timerFired : Bool
  handleCleared : Bool
  tracked : Bool
  socketOn : Bool

/-- Settle the streaming promise: no-op when already settled. -/
def settleStream (s : StreamState) (o : StreamOutcome) : StreamState :=
  if s.promise.isSome then s else { s with promise := Option.some o }

/-- State right after `sendStreamingJob` registers (lines 955-957). -/
def strInit (jobId : String) (deadline : Int) (execution : Execution)
    (opts : RunOpts) : StreamState :=
  ⟨jobId, deadline, execution, opts, Option.none, false, false, true, true⟩

/-- Events a pending streaming job can observe. -/
inductive StrEvent where
  | fireTimer (t : Int)
  | chunk (c : OutputChunk) (now : Int)

/-- One step of the `sendStreamingJob` machine.

`fireTimer` (lines 916-919): `cleanup()` — null the handle, detach
the socket handler — then reject with a timeout.

`chunk` (lines 929-953): the handler runs only while attached, and
returns at once on a foreign `jobId`.  Otherwise it applies
`parseOutput`: a throw (callback failure) triggers `cleanup()` and
rejects with the thrown value; on success the execution advances,
and if its `error` is now set the handler runs `cleanup()` and
resolves with the execution.  Otherwise it keeps waiting. -/
def strStep (s : StreamState) (e : StrEvent) : StreamState :=
  match e with
  | StrEvent.fireTimer t =>
    if s.timerFired ∨ s.handleCleared ∨ t < s.deadline then s
    else
      settleStream
        { s with timerFired := true, handleCleared := true,
                 socketOn := false }
        StreamOutcome.timedOut
  | StrEvent.chunk c now =>
    if ¬ s.socketOn then s
    else if c.jobId ≠ s.jobId then s
    else
      match parseOutput s.execution c.msg now s.opts with
      | Except.error err =>
        settleStream
          { s with handleCleared := true, socketOn := false }
          (StreamOutcome.rejected err)
      | Except.ok exec2 =>
        if exec2.error.isSome then
          settleStream
            { s with execution := exec2, handleCleared := true,
                     socketOn := false }
            (StreamOutcome.resolved exec2)
        else
          { s with execution := exec2 }

/-- Run a pending streaming job through a sequence of events. -/
def strRun (evs : List StrEvent) (s : StreamState) : StreamState :=
  evs.foldl strStep s

/-! ## The raw terminal streaming path `runTerminal`
(`src/sandboxSdk.ts` lines 599-671)

Chunks are `{jobId, chunk}` envelopes concatenated verbatim;
termination is the explicit `stream:end` envelope `{jobId, exitCode}`. -/

/-- `StreamChunkResponse`: `{jobId, chunk?, timestamp?}`. -/
structure StreamChunkResponse where
  jobId : String
  chunk : Option String
  timestamp : Option Int
deriving Repr, DecidableEq

/-- `StreamEndResponse`: `{jobId, exitCode?}`. -/
structure StreamEndResponse where
  jobId : String
  exitCode : Option Int
deriving Repr, DecidableEq

/-- How a `runTerminal` promise settles. -/
inductive TermOutcome where
  | resolved (output : String)
  | timedOut
deriving Repr, DecidableEq

/-- State of one pending `runTerminal` call: the accumulated output
string, the promise cell, the timer, and whether the two listeners
are still attached (`cleanup()` detaches both together). -/
structure TermState where
  jobId : String
  deadline : Int
  output : String
  promise : Option TermOutcome
  timerFired : Bool
  handleCleared : Bool
  listenersOn : Bool
deriving Repr, DecidableEq

/-- Settle the terminal promise: no-op when already settled. -/
def settleTerm (s : TermState) (o : TermOutcome) : TermState :=
  if s.promise.isSome then s else { s with promise := Option.some o }

/-- State right after `runTerminal` registers (lines 665-669). -/
def termInit (jobId : String) (deadline : Int) : TermState :=
  ⟨jobId, deadline, "", Option.none, false, false, true⟩

/-- Events a pending terminal job can observe. -/
inductive TermEvent where
  | fireTimer (t : Int)
  | streamChunk (c : StreamChunkResponse)
  | streamEnd (r : StreamEndResponse)
deriving Repr, DecidableEq

/-- One step of the `runTerminal` machine.

`fireTimer` (lines 625-628): `cleanup()` then reject with a timeout.

`streamChunk` (lines 643-655): the listener runs while attached; on
`res.jobId === jobId && res.chunk` (a truthy chunk: present and
non-empty) it appends the chunk to the output.

`streamEnd` (lines 657-663): on a matching `jobId` it runs
`cleanup()` and resolves with the accumulated output. -/
def termStep (s : TermState) (e : TermEvent) : TermState :=
  match e with
  | TermEvent.fireTimer t =>
    if s.timerFired ∨ s.handleCleared ∨ t < s.deadline then s
    else
      settleTerm
        { s with timerFired := true, handleCleared := true,
                 listenersOn := false }
        TermOutcome.timedOut
  | TermEvent.streamChunk c =>
    if ¬ s.listenersOn then s
    else
      match c.chunk with
      | Option.some txt =>
        if c.jobId = s.jobId ∧ txt ≠ "" then
          { s with output := s.output ++ txt }
        else s
      | Option.none => s
  | TermEvent.streamEnd r =>
    if ¬ s.listenersOn then s
    else if r.jobId = s.jobId then
      settleTerm
        { s with handleCleared := true, listenersOn := false }
        (TermOutcome.resolved s.output)
    else s

/-- Run a pending terminal job through a sequence of events. -/
def termRun (evs : List TermEvent) (s : TermState) : TermState :=
  evs.foldl termStep s

/-! ## Theorems -/

/-- C6: `RateLimiter` admits a call exactly when, after pruning
timestamps older than 60 seconds, fewer than the configured ceiling
of timestamps remain in the rolling window (the kept timestamps are
exactly those with `now - ts < 60000`); `getRetryAfter` is zero on an
empty window and `60000 - (now - oldest)` clamped at zero otherwise,
`oldest` being the first recorded timestamp still in the window. -/
theorem rateLimiter_admission_and_retryAfter :
    (∀ (r : RateLimiter) (now : Int),
        (r.canMakeRequest now).1 = true ↔
          r.requestTimestamps.countP (fun ts => decide (now - ts < 60000)) <
            r.maxRequestsPerMinute)
  ∧ (∀ (r : RateLimiter) (now : Int),
        r.requestTimestamps = [] → r.getRetryAfter now = 0)
  ∧ (∀ (r : RateLimiter) (now oldest : Int) (rest : List Int),
        r.requestTimestamps = oldest :: rest →
        r.getRetryAfter now = max (60000 - (now - oldest)) 0) := by
  refine ⟨?_, ?_, ?_⟩
  · intro r now
    have hpred : (fun ts => decide (now - 60000 < ts)) =
        (fun ts : Int => decide (now - ts < 60000)) := by
      funext ts
      rw [decide_eq_decide]
      omega
    unfold RateLimiter.canMakeRequest
    rw [List.countP_eq_length_filter, ← hpred]
    by_cases h :
        (r.requestTimestamps.filter (fun ts => decide (now - 60000 < ts))).length ≥
          r.maxRequestsPerMinute
    · simp only [h, if_pos]
      constructor
      · intro hfalse
        exact absurd hfalse (by simp)
      · intro hlt
        omega
    · simp only [h, if_neg]
      constructor
      · intro _
        omega
      · intro _
        rfl
  · intro r now h
    unfold RateLimiter.getRetryAfter
    rw [h]
  · intro r now oldest rest h
    unfold RateLimiter.getRetryAfter
    rw [h]

/-- C6 witness: the three parts at concrete inputs — a fresh limiter
is admitted, an empty window yields retry-after 0, and a singleton
window `[10]` queried at `now = 30010` yields the clamped formula. -/
theorem rateLimiter_admission_and_retryAfter_witness :
    (((RateLimiter.new 60).canMakeRequest 100000).1 = true ↔
        (RateLimiter.new 60).requestTimestamps.countP
          (fun ts => decide ((100000 : Int) - ts < 60000)) < 60)
  ∧ (RateLimiter.new 60).getRetryAfter 5 = 0
  ∧ (RateLimiter.mk [10] 0 60).getRetryAfter 30010 =
      max (60000 - (30010 - 10)) 0 :=
  ⟨rateLimiter_admission_and_retryAfter.1 (RateLimiter.new 60) 100000,
   rateLimiter_admission_and_retryAfter.2.1 (RateLimiter.new 60) 5 rfl,
   rateLimiter_admission_and_retryAfter.2.2 (RateLimiter.mk [10] 0 60)
     30010 10 [] rfl⟩

/-- C7: the claim "the gauge is never negative" fails on the code.
`decrementConcurrentJobs` stores the un-floored decrement
(`Math.max(--this.concurrentJobs, 0)` clamps only the return value),
so after one decrement on a fresh limiter `getConcurrentJobs` reports
`-1` while the decrement call itself returned the clamped `0` — the
stored gauge and the returned value contradict each other. -/
theorem concurrentJobs_gauge_goes_negative :
    (RateLimiter.new 60).decrementConcurrentJobs.2.getConcurrentJobs = -1
  ∧ (RateLimiter.new 60).decrementConcurrentJobs.1 = 0 := by
  constructor
  · rfl
  · rfl

/-- C10: a streamed line decoding to an object whose `type` is none
of the five recognized discriminants leaves the `Execution`
unchanged, invokes no callback (the result is `Except.ok` even when
every installed callback throws), and does not fail. -/
theorem parseOutput_unknown_type (execution : Execution) (msg : Msg)
    (now : Int) (opts : RunOpts)
    (h : msg.type ∉
      (["result", "stdout", "stderr", "error", "execution_count"] :
        List String)) :
    parseOutput execution msg now opts = Except.ok execution := by
  simp only [List.mem_cons, List.mem_singleton, not_or] at h
  obtain ⟨h1, h2, h3, h4, h5, _⟩ := h
  unfold parseOutput
  simp only [h1, h2, h3, h4, h5, if_false, if_neg, not_false_iff]
  rfl

/-- C10 witness: a `display_data` message with all callbacks set to
throwing functions is ignored without effect or failure. -/
theorem parseOutput_unknown_type_witness :
    parseOutput Execution.new
      ⟨"display_data", Option.none, Option.none, Option.none,
        Option.none, Option.none, Option.none⟩ 7
      ⟨Option.some (fun _ => Except.error "boomR"),
       Option.some (fun _ => Except.error "boomO"),
       Option.some (fun _ => Except.error "boomE"),
       Option.some (fun _ => Except.error "boomX")⟩ =
      Except.ok Execution.new :=
  parseOutput_unknown_type Execution.new
    ⟨"display_data", Option.none, Option.none, Option.none,
      Option.none, Option.none, Option.none⟩ 7
    ⟨Option.some (fun _ => Except.error "boomR"),
     Option.some (fun _ => Except.error "boomO"),
     Option.some (fun _ => Except.error "boomE"),
     Option.some (fun _ => Except.error "boomX")⟩
    (by decide)

/-- C4: the streaming job `"J"` fed, in order, the chunks
`{type:"stdout", text:"a"}`, `{type:"stdout", text:"b"}`,
`{type:"execution_count", execution_count:1}` and
`{type:"error", name:"ValueError", value:"bad", traceback:"..."}`
is still pending after the first three chunks and resolves exactly
when the error chunk is processed, with the accumulated execution
carrying `logs.stdout = ["a","b"]`, `executionCount = 1` and
`error = {name:"ValueError", value:"bad", traceback:"..."}`. -/
theorem streaming_assembly_scenario :
    (strRun
        [StrEvent.chunk ⟨"J", ⟨"stdout", Option.some "a", Option.none,
            Option.none, Option.none, Option.none, Option.none⟩⟩ 0,
         StrEvent.chunk ⟨"J", ⟨"stdout", Option.some "b", Option.none,
            Option.none, Option.none, Option.none, Option.none⟩⟩ 0,
         StrEvent.chunk ⟨"J", ⟨"execution_count", Option.none, Option.none,
            Option.none, Option.none, Option.some 1, Option.none⟩⟩ 0]
        (strInit "J" 60000 Execution.new RunOpts.none)).promise = Option.none
  ∧ (strRun
        [StrEvent.chunk ⟨"J", ⟨"stdout", Option.some "a", Option.none,
            Option.none, Option.none, Option.none, Option.none⟩⟩ 0,
         StrEvent.chunk ⟨"J", ⟨"stdout", Option.some "b", Option.none,
            Option.none, Option.none, Option.none, Option.none⟩⟩ 0,
         StrEvent.chunk ⟨"J", ⟨"execution_count", Option.none, Option.none,
            Option.none, Option.none, Option.some 1, Option.none⟩⟩ 0,
         StrEvent.chunk ⟨"J", ⟨"error", Option.none,
            Option.some "ValueError", Option.some "bad", Option.some "...",
            Option.none, Option.none⟩⟩ 0]
        (strInit "J" 60000 Execution.new RunOpts.none)).promise =
      Option.some (StreamOutcome.resolved
        ⟨[], ⟨[Option.some "a", Option.some "b"], []⟩,
         Option.some ⟨Option.some "ValueError", Option.some "bad",
           Option.some "..."⟩,
         Option.some 1⟩) := by
  constructor
  · rfl
  · rfl

/-- C9: the raw terminal job `"J"` fed the chunks `{chunk:"hel"}` and
`{chunk:"lo"}` concatenates them verbatim in arrival order (output
`"hel"` then `"hello"`, promise still pending), and the stream-end
envelope for the same job is the termination signal: it resolves the
operation with the accumulated output `"hello"`. -/
theorem terminal_raw_scenario :
    (termRun [TermEvent.streamChunk ⟨"J", Option.some "hel", Option.none⟩]
        (termInit "J" 60000)).output = "hel"
  ∧ (termRun [TermEvent.streamChunk ⟨"J", Option.some "hel", Option.none⟩,
        TermEvent.streamChunk ⟨"J", Option.some "lo", Option.none⟩]
        (termInit "J" 60000)).output = "hello"
  ∧ (termRun [TermEvent.streamChunk ⟨"J", Option.some "hel", Option.none⟩,
        TermEvent.streamChunk ⟨"J", Option.some "lo", Option.none⟩]
        (termInit "J" 60000)).promise = Option.none
  ∧ (termRun [TermEvent.streamChunk ⟨"J", Option.some "hel", Option.none⟩,
        TermEvent.streamChunk ⟨"J", Option.some "lo", Option.none⟩,
        TermEvent.streamEnd ⟨"J", Option.some 0⟩]
        (termInit "J" 60000)).promise =
      Option.some (TermOutcome.resolved "hello") := by
  refine ⟨?_, ?_, ?_, ?_⟩
  · rfl
  · rfl
  · rfl
  · rfl

/-- C3: correlation-id isolation.  A unary `job:result` message whose
`jobId` differs from a pending `sendJob`'s id leaves that job's state
completely unchanged (it neither settles the promise nor alters the
wait), and likewise a `job:output` chunk whose `jobId` differs from a
pending streaming job's id leaves that job's state unchanged. -/
theorem correlation_id_isolation :
    (∀ (s : SendJobState) (m : JobResultResponse),
        m.jobId ≠ s.jobId → sjStep s (SJEvent.deliver m) = s)
  ∧ (∀ (s : StreamState) (c : OutputChunk) (now : Int),
        c.jobId ≠ s.jobId → strStep s (StrEvent.chunk c now) = s) := by
  constructor
  · intro s m h
    unfold sjStep
    by_cases hs : s.socketOn
    · simp [hs, h]
    · simp [hs]
  · intro s c now h
    unfold strStep
    by_cases hs : s.socketOn
    · simp [hs, h]
    · simp [hs]

/-- C3 witness: a message for job `"B"` delivered to pending job
`"A"`, on both the unary and the streaming path. -/
theorem correlation_id_isolation_witness :
    sjStep (sjInit "A" 60000)
        (SJEvent.deliver ⟨"B", true, Option.some "out", Option.none⟩) =
      sjInit "A" 60000
  ∧ strStep (strInit "A" 60000 Execution.new RunOpts.none)
        (StrEvent.chunk ⟨"B", ⟨"stdout", Option.some "x", Option.none,
            Option.none, Option.none, Option.none, Option.none⟩⟩ 0) =
      strInit "A" 60000 Execution.new RunOpts.none :=
  ⟨correlation_id_isolation.1 (sjInit "A" 60000)
      ⟨"B", true, Option.some "out", Option.none⟩ (by decide),
   correlation_id_isolation.2 (strInit "A" 60000 Execution.new RunOpts.none)
      ⟨"B", ⟨"stdout", Option.some "x", Option.none, Option.none,
          Option.none, Option.none, Option.none⟩⟩ 0 (by decide)⟩

/-- C5: if processing a matching chunk throws — in particular when a
per-chunk callback (`onResult`/`onStdout`/`onStderr`/`onError`)
throws or rejects, which is exactly when `parseOutput` returns
`Except.error` — the pending streaming wait aborts: the promise
rejects with that callback failure (the job does not resolve on the
half-observed stream), and the handler is deregistered from the
socket (`cleanup()` runs before `reject` in the source). -/
theorem callback_failure_aborts_stream (s : StreamState)
    (c : OutputChunk) (now : Int) (e : String)
    (hpend : s.promise = Option.none) (hsock : s.socketOn = true)
    (hjob : c.jobId = s.jobId)
    (hthrow : parseOutput s.execution c.msg now s.opts = Except.error e) :
    (strStep s (StrEvent.chunk c now)).promise =
        Option.some (StreamOutcome.rejected e)
  ∧ (strStep s (StrEvent.chunk c now)).socketOn = false := by
  unfold strStep
  simp only [hsock, hjob, hthrow, not_true, Bool.not_eq_true, if_false,
    ne_eq, not_true_eq_false]
  unfold settleStream
  simp [hpend]

/-- C5 witness: a throwing `onStdout` callback on a matching `stdout`
chunk rejects the wait with the thrown value and detaches the
handler. -/
theorem callback_failure_aborts_stream_witness :
    (strStep
        (strInit "J" 60000 Execution.new
          ⟨Option.none, Option.some (fun _ => Except.error "boom"),
           Option.none, Option.none⟩)
        (StrEvent.chunk ⟨"J", ⟨"stdout", Option.some "a", Option.none,
            Option.none, Option.none, Option.none, Option.none⟩⟩ 0)).promise =
      Option.some (StreamOutcome.rejected "boom")
  ∧ (strStep
        (strInit "J" 60000 Execution.new
          ⟨Option.none, Option.some (fun _ => Except.error "boom"),
           Option.none, Option.none⟩)
        (StrEvent.chunk ⟨"J", ⟨"stdout", Option.some "a", Option.none,
            Option.none, Option.none, Option.none, Option.none⟩⟩ 0)).socketOn =
      false :=
  callback_failure_aborts_stream
    (strInit "J" 60000 Execution.new
      ⟨Option.none, Option.some (fun _ => Except.error "boom"),
       Option.none, Option.none⟩)
    ⟨"J", ⟨"stdout", Option.some "a", Option.none, Option.none,
        Option.none, Option.none, Option.none⟩⟩ 0 "boom"
    rfl rfl rfl rfl

/-- Helper: one `sendJob` step never changes an already-settled
promise (the JS promise ignores further `resolve`/`reject`). -/
lemma sjStep_preserves_settled (s : SendJobState) (o : JobOutcome)
    (e : SJEvent) (h : s.promise = Option.some o) :
    (sjStep s e).promise = Option.some o := by
  have hsome : s.promise.isSome = true := by rw [h]; rfl
  cases e <;>
    simp only [sjStep, settleJob] <;>
    repeat' split
  all_goals exact h

/-- Helper: an already-settled `sendJob` promise stays settled with
the same outcome across any further sequence of events. -/
lemma sjRun_preserves_settled (evs : List SJEvent) (s : SendJobState)
    (o : JobOutcome) (h : s.promise = Option.some o) :
    (sjRun evs s).promise = Option.some o := by
  induction evs generalizing s with
  | nil => exact h
  | cons e rest ih => exact ih (sjStep s e) (sjStep_preserves_settled s o e h)

/-- C1: exactly-once settlement for `sendJob`.  (1) Once the promise
is settled — with one of the three `JobOutcome`s: resolve, reject by
result, reject by timeout — no further timer or message event ever
changes it, so the job never settles twice.  (2) A matching result
message clears the timeout handle, and (3) firing the timer after
the handle was cleared is a complete no-op on the state, so whichever
path fires second is a no-op. -/
theorem sendJob_exactly_once_settlement :
    (∀ (s : SendJobState) (o : JobOutcome) (evs : List SJEvent),
        s.promise = Option.some o →
        (sjRun evs s).promise = Option.some o)
  ∧ (∀ (s : SendJobState) (m : JobResultResponse),
        s.socketOn = true → m.jobId = s.jobId →
        (sjStep s (SJEvent.deliver m)).handleCleared = true)
  ∧ (∀ (s : SendJobState) (t : Int),
        s.handleCleared = true → sjStep s (SJEvent.fireTimer t) = s) := by
  refine ⟨?_, ?_, ?_⟩
  · intro s o evs h
    exact sjRun_preserves_settled evs s o h
  · intro s m hsock hjob
    simp only [sjStep, settleJob, hsock, hjob]
    repeat' split
    all_goals
      first
        | rfl
        | exact absurd trivial (by assumption)
        | exact absurd rfl (by assumption)
  · intro s t h
    simp only [sjStep, h]
    simp

/-- C1 witness: the three parts at concrete inputs — a job settled
by timeout is unchanged by a later matching result message; a
matching delivery on a fresh job clears the handle; firing the timer
on the resulting state is a no-op. -/
theorem sendJob_exactly_once_settlement_witness :
    (sjRun [SJEvent.deliver ⟨"A", true, Option.some "out", Option.none⟩]
        (sjStep (sjInit "A" 100) (SJEvent.fireTimer 100))).promise =
      Option.some JobOutcome.timedOut
  ∧ (sjStep (sjInit "A" 100)
        (SJEvent.deliver ⟨"A", true, Option.some "out",
          Option.none⟩)).handleCleared = true
  ∧ sjStep
        (sjStep (sjInit "A" 100)
          (SJEvent.deliver ⟨"A", true, Option.some "out", Option.none⟩))
        (SJEvent.fireTimer 200) =
      sjStep (sjInit "A" 100)
        (SJEvent.deliver ⟨"A", true, Option.some "out", Option.none⟩) :=
  ⟨sendJob_exactly_once_settlement.1
      (sjStep (sjInit "A" 100) (SJEvent.fireTimer 100))
      JobOutcome.timedOut
      [SJEvent.deliver ⟨"A", true, Option.some "out", Option.none⟩] rfl,
   sendJob_exactly_once_settlement.2.1 (sjInit "A" 100)
      ⟨"A", true, Option.some "out", Option.none⟩ rfl rfl,
   sendJob_exactly_once_settlement.2.2
      (sjStep (sjInit "A" 100)
        (SJEvent.deliver ⟨"A", true, Option.some "out", Option.none⟩))
      200 rfl⟩

/-- Helper: no `sendJob` event changes the job's deadline. -/
lemma sjStep_deadline (s : SendJobState) (e : SJEvent) :
    (sjStep s e).deadline = s.deadline := by
  cases e <;>
    simp only [sjStep, settleJob] <;>
    repeat' split
  all_goals rfl

/-- Helper: a delivered result message never settles a `sendJob`
promise with a timeout — only the timer path produces that outcome. -/
lemma sjStep_deliver_no_timeout (s : SendJobState) (m : JobResultResponse)
    (h : s.promise ≠ Option.some JobOutcome.timedOut) :
    (sjStep s (SJEvent.deliver m)).promise ≠
      Option.some JobOutcome.timedOut := by
  simp only [sjStep, settleJob]
  repeat' split
  all_goals simp_all

/-- Helper: if a run of a pending `sendJob` ends rejected by timeout,
the trace contains a timer-fire event no earlier than the deadline. -/
lemma sjRun_timeout_has_late_fire (evs : List SJEvent) (s : SendJobState)
    (h : (sjRun evs s).promise = Option.some JobOutcome.timedOut) :
    s.promise = Option.some JobOutcome.timedOut ∨
      ∃ t, SJEvent.fireTimer t ∈ evs ∧ s.deadline ≤ t := by
  induction evs generalizing s with
  | nil => exact Or.inl h
  | cons e rest ih =>
    rcases ih (sjStep s e) h with h1 | ⟨t, ht, hd⟩
    · by_cases h0 : s.promise = Option.some JobOutcome.timedOut
      · exact Or.inl h0
      · cases e with
        | deliver m => exact absurd h1 (sjStep_deliver_no_timeout s m h0)
        | fireTimer t =>
          right
          refine ⟨t, List.mem_cons_self _ _, ?_⟩
          by_cases hc : s.timerFired = true ∨ s.handleCleared = true ∨
              t < s.deadline
          · rw [sjStep] at h1
            simp only [hc, if_pos] at h1
            exact absurd h1 h0
          · push_neg at hc
            exact hc.2.2
    · right
      rw [sjStep_deadline] at hd
      exact ⟨t, List.mem_cons_of_mem _ ht, hd⟩

/-- Helper: tracking a batch of fresh, pairwise-distinct listener
identities appends them in order. -/
lemma trackAll_fresh (event : String) (ids : List Nat) :
    ∀ (r : Registry), (∀ i ∈ ids, (event, i) ∉ r) → ids.Nodup →
      trackAll r event ids = r ++ ids.map (fun i => (event, i)) := by
  induction ids with
  | nil => intro r _ _; simp [trackAll]
  | cons i rest ih =>
    intro r hfresh hnd
    have hi : (event, i) ∉ r := hfresh i (List.mem_cons_self _ _)
    have hstep : trackListener r event i = r ++ [(event, i)] := by
      unfold trackListener
      simp [hi]
    have hrest : ∀ j ∈ rest, (event, j) ∉ r ++ [(event, i)] := by
      intro j hj
      simp only [List.mem_append, List.mem_singleton, not_or]
      refine ⟨hfresh j (List.mem_cons_of_mem _ hj), ?_⟩
      intro hcontra
      have : j = i := (Prod.mk.injEq _ _ _ _).mp hcontra |>.2
      exact (List.nodup_cons.mp hnd).1 (this ▸ hj)
    calc trackAll r event (i :: rest)
        = trackAll (r ++ [(event, i)]) event rest := by
          simp [trackAll, List.foldl_cons, hstep]
      _ = (r ++ [(event, i)]) ++ rest.map (fun j => (event, j)) :=
          ih _ hrest (List.nodup_cons.mp hnd).2
      _ = r ++ (i :: rest).map (fun j => (event, j)) := by simp

/-- Helper: removing a batch of listener identities from the registry
that holds exactly those identities empties it. -/
lemma removeAll_map (event : String) (ids : List Nat) :
    removeAll (ids.map (fun i => (event, i))) event ids = [] := by
  induction ids with
  | nil => rfl
  | cons i rest ih =>
    have hstep :
        removeListener ((i :: rest).map (fun j => (event, j))) event i =
          rest.map (fun j => (event, j)) := by
      simp [removeListener]
    simp only [removeAll, List.foldl_cons]
    rw [show removeListener ((i :: rest).map fun j => (event, j)) event i =
          rest.map (fun j => (event, j)) from hstep]
    exact ih

/-- C2: the timeout path of `sendJob`.  (1) A run of a pending job
that ends rejected by timeout contains a timer-fire event no earlier
than the deadline (`setTimeout` never fires early).  (2) When the
armed timer fires on a pending job it removes the tracked listener
and rejects with the timeout outcome.  (3) Tracking N fresh listeners
and removing each of them — as N timed-out jobs do — leaves no
residual tracked listener.  (4) A result message for the same
correlation id arriving after the timeout leaves the job rejected by
timeout and leaves no tracked listener: it is dropped as orphaned
with no effect on the settlement. -/
theorem sendJob_timeout_path :
    (∀ (j : String) (d : Int) (evs : List SJEvent),
        (sjRun evs (sjInit j d)).promise = Option.some JobOutcome.timedOut →
        ∃ t, SJEvent.fireTimer t ∈ evs ∧ d ≤ t)
  ∧ (∀ (s : SendJobState) (t : Int),
        s.promise = Option.none → s.timerFired = false →
        s.handleCleared = false → s.deadline ≤ t →
        (sjStep s (SJEvent.fireTimer t)).tracked = false ∧
        (sjStep s (SJEvent.fireTimer t)).promise =
          Option.some JobOutcome.timedOut)
  ∧ (∀ (event : String) (ids : List Nat), ids.Nodup →
        removeAll (trackAll [] event ids) event ids = [])
  ∧ (∀ (s : SendJobState) (m : JobResultResponse),
        s.promise = Option.some JobOutcome.timedOut → s.tracked = false →
        (sjStep s (SJEvent.deliver m)).promise =
            Option.some JobOutcome.timedOut ∧
        (sjStep s (SJEvent.deliver m)).tracked = false) := by
  refine ⟨?_, ?_, ?_, ?_⟩
  · intro j d evs h
    rcases sjRun_timeout_has_late_fire evs (sjInit j d) h with h0 | hex
    · exact absurd h0 (by simp [sjInit])
    · exact hex
  · intro s t hpend hfired hcleared hle
    have hc : ¬ (s.timerFired = true ∨ s.handleCleared = true ∨
        t < s.deadline) := by
      simp [hfired, hcleared, not_lt.mpr hle]
    simp only [sjStep, hc, if_neg, not_false_iff, settleJob]
    simp [hpend]
  · intro event ids hnd
    rw [trackAll_fresh event ids [] (by simp) hnd]
    simpa using removeAll_map event ids
  · intro s m htimed htracked
    refine ⟨sjStep_preserves_settled s JobOutcome.timedOut
      (SJEvent.deliver m) htimed, ?_⟩
    simp only [sjStep, settleJob]
    repeat' split
    all_goals
      first
        | exact htracked
        | rfl

/-- C2 witness: the four parts at concrete inputs — a job with
deadline 100 timed out by a fire at 100; the fire removes the tracked
listener and rejects; three tracked-then-removed listeners leave an
empty registry; a matching result delivered after the timeout changes
neither the settlement nor the (empty) tracking. -/
theorem sendJob_timeout_path_witness :
    (∃ t, SJEvent.fireTimer t ∈ [SJEvent.fireTimer 100] ∧ (100 : Int) ≤ t)
  ∧ ((sjStep (sjInit "A" 100) (SJEvent.fireTimer 100)).tracked = false ∧
      (sjStep (sjInit "A" 100) (SJEvent.fireTimer 100)).promise =
        Option.some JobOutcome.timedOut)
  ∧ removeAll (trackAll [] "job:result" [0, 1, 2]) "job:result" [0, 1, 2] = []
  ∧ ((sjStep (sjStep (sjInit "A" 100) (SJEvent.fireTimer 100))
        (SJEvent.deliver ⟨"A", true, Option.some "late", Option.none⟩)).promise =
          Option.some JobOutcome.timedOut ∧
      (sjStep (sjStep (sjInit "A" 100) (SJEvent.fireTimer 100))
        (SJEvent.deliver ⟨"A", true, Option.some "late",
          Option.none⟩)).tracked = false) :=
  ⟨sendJob_timeout_path.1 "A" 100 [SJEvent.fireTimer 100] rfl,
   sendJob_timeout_path.2.1 (sjInit "A" 100) 100 rfl rfl rfl (le_refl _),
   sendJob_timeout_path.2.2.1 "job:result" [0, 1, 2] (by decide),
   sendJob_timeout_path.2.2.2
     (sjStep (sjInit "A" 100) (SJEvent.fireTimer 100))
     ⟨"A", true, Option.some "late", Option.none⟩ rfl rfl⟩

/-- Helper: the ring after one `recordRequest` — push, then drop the
oldest entry when the ring would exceed 1000. -/
lemma recordRequest_responseTimes (c : MetricsCollector) (s : Bool)
    (d : ℚ) :
    (c.recordRequest s d).responseTimes =
      if (c.responseTimes ++ [d]).length > 1000 then
        (c.responseTimes ++ [d]).tail
      else c.responseTimes ++ [d] := by
  simp only [MetricsCollector.recordRequest,
    MetricsCollector.updateAverageResponseTime]
  repeat' split
  all_goals rfl

/-- Helper: `recordRequest` keeps the ring within the 1000-entry cap. -/
lemma recordRequest_length_le (c : MetricsCollector) (s : Bool) (d : ℚ)
    (h : c.responseTimes.length ≤ 1000) :
    (c.recordRequest s d).responseTimes.length ≤ 1000 := by
  rw [recordRequest_responseTimes]
  split
  · simp only [List.length_tail, List.length_append, List.length_singleton]
    omega
  · rename_i hn
    simp only [List.length_append, List.length_singleton] at hn ⊢
    omega

/-- Helper: after any sequence of samples fed from a within-cap ring,
the ring holds exactly the most recent 1000 samples. -/
lemma feed_responseTimes (l : List ℚ) :
    ∀ (c : MetricsCollector), c.responseTimes.length ≤ 1000 →
      (c.feed l).responseTimes =
        (c.responseTimes ++ l).drop
          (c.responseTimes.length + l.length - 1000) := by
  induction l with
  | nil =>
    intro c h
    simp only [MetricsCollector.feed, List.foldl_nil, List.append_nil,
      List.length_nil, Nat.add_zero]
    rw [Nat.sub_eq_zero_of_le h, List.drop_zero]
  | cons d rest ih =>
    intro c h
    have hstep : MetricsCollector.feed c (d :: rest) =
        MetricsCollector.feed (c.recordRequest true d) rest := by
      simp [MetricsCollector.feed]
    rw [hstep, ih (c.recordRequest true d) (recordRequest_length_le c true d h),
      recordRequest_responseTimes]
    by_cases hn : (c.responseTimes ++ [d]).length > 1000
    · have hlen : c.responseTimes.length = 1000 := by
        simp only [List.length_append, List.length_singleton] at hn
        omega
      rw [if_pos hn]
      have h1 : (c.responseTimes ++ [d]).tail =
          List.drop 1 (c.responseTimes ++ [d]) := (List.drop_one _).symm
      rw [h1]
      have h2 : List.drop 1 (c.responseTimes ++ [d]) ++ rest =
          List.drop 1 ((c.responseTimes ++ [d]) ++ rest) :=
        (List.drop_append_of_le_length (by simp)).symm
      rw [h2, List.drop_drop]
      have h3 : (c.responseTimes ++ [d]) ++ rest =
          c.responseTimes ++ (d :: rest) := by
        rw [List.append_assoc, List.singleton_append]
      rw [h3]
      have harg : 1 + ((List.drop 1 (c.responseTimes ++ [d])).length +
          rest.length - 1000) =
          c.responseTimes.length + (d :: rest).length - 1000 := by
        simp only [List.length_drop, List.length_append,
          List.length_singleton, List.length_cons, List.length_nil, hlen]
        omega
      rw [harg]
    · rw [if_neg hn]
      rw [List.append_assoc, List.singleton_append]
      have harg : (c.responseTimes ++ [d]).length + rest.length - 1000 =
          c.responseTimes.length + (d :: rest).length - 1000 := by
        simp only [List.length_append, List.length_singleton,
          List.length_cons, List.length_nil]
        omega
      rw [harg]

/-- Helper: `updateAverageResponseTime` on a non-empty ring sets the
average to the mean of the ring without touching the ring. -/
lemma updateAverage_spec (c : MetricsCollector)
    (h : ¬ c.responseTimes.length = 0) :
    (c.updateAverageResponseTime).metrics.averageResponseTime =
        c.responseTimes.sum / (c.responseTimes.length : ℚ)
  ∧ (c.updateAverageResponseTime).responseTimes = c.responseTimes := by
  unfold MetricsCollector.updateAverageResponseTime
  rw [if_neg h]
  exact ⟨rfl, rfl⟩

/-- Helper: `recordRequest` is `updateAverageResponseTime` applied to
the bumped counters and the pushed-and-capped ring. -/
lemma recordRequest_as_update (c : MetricsCollector) (s : Bool) (d : ℚ) :
    ∃ m : MetricsData, c.recordRequest s d =
      MetricsCollector.updateAverageResponseTime ⟨m,
        if (c.responseTimes ++ [d]).length > 1000 then
          (c.responseTimes ++ [d]).tail
        else c.responseTimes ++ [d]⟩ := by
  unfold MetricsCollector.recordRequest
  exact ⟨_, rfl⟩

/-- Helper: after `recordRequest` the reported average is the
arithmetic mean over exactly the current ring contents (the ring is
never empty right after a record). -/
lemma recordRequest_average (c : MetricsCollector) (s : Bool) (d : ℚ) :
    (c.recordRequest s d).metrics.averageResponseTime =
      (c.recordRequest s d).responseTimes.sum /
        ((c.recordRequest s d).responseTimes.length : ℚ) := by
  obtain ⟨m, hm⟩ := recordRequest_as_update c s d
  have hne :
      ¬ (MetricsCollector.mk m
          (if (c.responseTimes ++ [d]).length > 1000 then
            (c.responseTimes ++ [d]).tail
          else c.responseTimes ++ [d])).responseTimes.length = 0 := by
    split
    · rename_i hgt
      simp only [List.length_tail, List.length_append,
        List.length_singleton] at hgt ⊢
      omega
    · simp
  rw [hm, (updateAverage_spec _ hne).1, (updateAverage_spec _ hne).2]

/-- Helper: after feeding at least one sample, the reported average
is the mean over the final ring contents. -/
lemma feed_average (l : List ℚ) :
    ∀ (c : MetricsCollector), l ≠ [] →
      (c.feed l).metrics.averageResponseTime =
        (c.feed l).responseTimes.sum /
          ((c.feed l).responseTimes.length : ℚ) := by
  induction l with
  | nil => intro c h; exact absurd rfl h
  | cons d rest ih =>
    intro c _
    have hstep : MetricsCollector.feed c (d :: rest) =
        MetricsCollector.feed (c.recordRequest true d) rest := by
      simp [MetricsCollector.feed]
    by_cases hrest : rest = []
    · subst hrest
      rw [hstep]
      simp only [MetricsCollector.feed, List.foldl_nil]
      exact recordRequest_average c true d
    · rw [hstep]
      exact ih (c.recordRequest true d) hrest

/-- C8: `recordRequest` (1) increments the total counter and exactly
one of the success/fail counters; (2) keeps the response-time ring
capped at 1000 entries with FIFO eviction — below the cap it appends,
at the cap it drops the oldest entry and appends, and the cap is an
invariant; (3) sets the reported average to the arithmetic mean over
exactly the current ring contents; and (4) after feeding 1001
samples the ring holds exactly the last 1000 (the first, evicted
sample no longer contributes to the average, which is the mean of
the remaining 1000). -/
theorem metrics_recordRequest_ring :
    (∀ (c : MetricsCollector) (s : Bool) (d : ℚ),
        (c.recordRequest s d).metrics.totalRequests =
          c.metrics.totalRequests + 1
      ∧ (s = true →
          (c.recordRequest s d).metrics.successfulRequests =
            c.metrics.successfulRequests + 1 ∧
          (c.recordRequest s d).metrics.failedRequests =
            c.metrics.failedRequests)
      ∧ (s = false →
          (c.recordRequest s d).metrics.failedRequests =
            c.metrics.failedRequests + 1 ∧
          (c.recordRequest s d).metrics.successfulRequests =
            c.metrics.successfulRequests))
  ∧ (∀ (c : MetricsCollector) (s : Bool) (d : ℚ),
        (c.responseTimes.length < 1000 →
          (c.recordRequest s d).responseTimes = c.responseTimes ++ [d])
      ∧ (c.responseTimes.length = 1000 →
          (c.recordRequest s d).responseTimes =
            c.responseTimes.tail ++ [d])
      ∧ (c.responseTimes.length ≤ 1000 →
          (c.recordRequest s d).responseTimes.length ≤ 1000))
  ∧ (∀ (c : MetricsCollector) (s : Bool) (d : ℚ),
        (c.recordRequest s d).metrics.averageResponseTime =
          (c.recordRequest s d).responseTimes.sum /
            ((c.recordRequest s d).responseTimes.length : ℚ))
  ∧ (∀ (l : List ℚ), l.length = 1001 →
        (MetricsCollector.new.feed l).responseTimes = l.tail
      ∧ (MetricsCollector.new.feed l).metrics.averageResponseTime =
          l.tail.sum / 1000) := by
  refine ⟨?_, ?_, ?_, ?_⟩
  · intro c s d
    refine ⟨?_, ?_, ?_⟩
    · simp only [MetricsCollector.recordRequest,
        MetricsCollector.updateAverageResponseTime]
      repeat' split
      all_goals rfl
    · intro hs
      subst hs
      constructor <;>
        · simp only [MetricsCollector.recordRequest,
            MetricsCollector.updateAverageResponseTime]
          repeat' split
          all_goals first | rfl | simp_all
    · intro hs
      subst hs
      constructor <;>
        · simp only [MetricsCollector.recordRequest,
            MetricsCollector.updateAverageResponseTime]
          repeat' split
          all_goals first | rfl | simp_all
  · intro c s d
    refine ⟨?_, ?_, recordRequest_length_le c s d⟩
    · intro hlt
      rw [recordRequest_responseTimes]
      have hcond : ¬ (c.responseTimes ++ [d]).length > 1000 := by
        simp only [List.length_append, List.length_singleton]
        omega
      rw [if_neg hcond]
    · intro heq
      rw [recordRequest_responseTimes]
      have hcond : (c.responseTimes ++ [d]).length > 1000 := by
        simp only [List.length_append, List.length_singleton]
        omega
      rw [if_pos hcond]
      cases hc : c.responseTimes with
      | nil =>
        rw [hc] at heq
        exact absurd heq (by simp)
      | cons x xs =>
        simp
  · intro c s d
    exact recordRequest_average c s d
  · intro l hlen
    have hne : l ≠ [] := by
      intro hcontra
      rw [hcontra] at hlen
      exact absurd hlen (by simp)
    have hring : (MetricsCollector.new.feed l).responseTimes = l.tail := by
      rw [feed_responseTimes l MetricsCollector.new (by decide)]
      simp only [MetricsCollector.new, List.nil_append, List.length_nil,
        Nat.zero_add, hlen]
      rw [show (1001 : Nat) - 1000 = 1 from rfl, List.drop_one]
    refine ⟨hring, ?_⟩
    rw [feed_average l MetricsCollector.new hne, hring]
    have htlen : l.tail.length = 1000 := by
      simp only [List.length_tail, hlen]
    rw [htlen]
    norm_num

/-- C8 witness: the four parts at concrete inputs — one successful
record on a fresh collector for the counters/ring/average parts, and
1001 constant samples for the eviction part. -/
theorem metrics_recordRequest_ring_witness :
    ((MetricsCollector.new.recordRequest true 5).metrics.totalRequests =
        MetricsCollector.new.metrics.totalRequests + 1
      ∧ (MetricsCollector.new.recordRequest true 5).metrics.successfulRequests =
          MetricsCollector.new.metrics.successfulRequests + 1
      ∧ (MetricsCollector.new.recordRequest true 5).metrics.failedRequests =
          MetricsCollector.new.metrics.failedRequests)
  ∧ (MetricsCollector.new.recordRequest true 5).responseTimes =
      MetricsCollector.new.responseTimes ++ [5]
  ∧ (MetricsCollector.new.recordRequest true 5).metrics.averageResponseTime =
      (MetricsCollector.new.recordRequest true 5).responseTimes.sum /
        ((MetricsCollector.new.recordRequest true 5).responseTimes.length : ℚ)
  ∧ (MetricsCollector.new.feed (List.replicate 1001 2)).responseTimes =
      (List.replicate 1001 2).tail
  ∧ (MetricsCollector.new.feed
        (List.replicate 1001 2)).metrics.averageResponseTime =
      (List.replicate 1001 2).tail.sum / 1000 := by
  have h1 := (metrics_recordRequest_ring.1 MetricsCollector.new true 5)
  have h2 := (metrics_recordRequest_ring.2.1 MetricsCollector.new true 5).1
    (by decide)
  have h3 := metrics_recordRequest_ring.2.2.1 MetricsCollector.new true 5
  have h4 := metrics_recordRequest_ring.2.2.2 (List.replicate 1001 2)
    (by rw [List.length_replicate])
  exact ⟨⟨h1.1, (h1.2.1 rfl).1, (h1.2.1 rfl).2⟩, h2, h3, h4.1, h4.2⟩

end SandboxSdk
